import Mathlib

/-!
Verification of the `Simulator` controller of the ai-simulator repository.

The TypeScript class `Simulator` is shallowly embedded: configuration merging
becomes a pure function on an options record with `Option`-typed optional
fields (JavaScript truthiness of a supplied value is modelled per field type),
and the stateful controller becomes pure functions from a run state and an
operator-response script to a final state together with an ordered trace of
observable effects (logger records, console output, environment fetches,
logger flush, process exit).
-/

/-- JavaScript number values in the options record.  Only defaulting and
pass-through happen to them, so exact rationals model them faithfully. -/
abbrev JsNum := Rat

/-- The options record accepted by the `Simulator` constructor.  Optional
fields are `Option`-typed; `none` models an absent (`undefined`) field. -/
structure SimulatorOptions where
  name : String
  description : Option String
  iterations : Option JsNum
  numSentients : Option JsNum
  numNonSentients : Option JsNum
  maxPopulationSize : Option JsNum
  godEventProbability : Option JsNum
  spawnRate : Option JsNum
  verbose : Option Bool
  temperature : Option JsNum
  mode : Option String
  data : Option (List String)
  environment : String
deriving DecidableEq

/-- A fully resolved options record, as produced by
`initOptionsWithDefaults`: every field holds a value. -/
structure ResolvedOptions where
  name : String
  description : String
  iterations : JsNum
  numSentients : JsNum
  numNonSentients : JsNum
  maxPopulationSize : JsNum
  godEventProbability : JsNum
  spawnRate : JsNum
  verbose : Bool
  temperature : JsNum
  mode : String
  data : List String
  environment : String
deriving DecidableEq

/-- JavaScript `a || d` for an optional string field: an absent field and the
empty string are falsy, any other string is truthy. -/
def jsOrString : Option String → String → String
  | none, d => d
  | some s, d => if s = "" then d else s

/-- JavaScript `a || d` for an optional numeric field: an absent field and the
number 0 are falsy, any other number is truthy. -/
def jsOrNum : Option JsNum → JsNum → JsNum
  | none, d => d
  | some x, d => if x = 0 then d else x

/-- JavaScript `a || d` for an optional boolean field: an absent field and
`false` are falsy. -/
def jsOrBool : Option Bool → Bool → Bool
  | none, d => d
  | some b, d => b || d

/-- JavaScript `a || d` for an optional array field: an absent field is falsy
but every array value, the empty array included, is truthy. -/
def jsOrList : Option (List String) → List String → List String
  | none, d => d
  | some l, _ => l

/-- `Simulator.initOptionsWithDefaults`: fills every unset (or falsy) optional
field with its default; `name` and `environment` are copied through. -/
def initOptionsWithDefaults (options : SimulatorOptions) : ResolvedOptions :=
  { name := options.name
    description :=
      jsOrString options.description "a generic simulation with nothing special"
    iterations := jsOrNum options.iterations 1000
    numSentients := jsOrNum options.numSentients 10
    numNonSentients := jsOrNum options.numNonSentients 10
    maxPopulationSize := jsOrNum options.maxPopulationSize 100
    godEventProbability := jsOrNum options.godEventProbability 0.1
    spawnRate := jsOrNum options.spawnRate 0.1
    verbose := jsOrBool options.verbose false
    temperature := jsOrNum options.temperature 0.5
    mode := jsOrString options.mode "normal"
    data := jsOrList options.data []
    environment := options.environment }

/-- C8: the constructor's default merge resolves each unset optional field to
its documented default and preserves `name` and `environment` unchanged. -/
theorem initOptionsWithDefaults_defaults (o : SimulatorOptions) :
    (initOptionsWithDefaults o).name = o.name ∧
    (initOptionsWithDefaults o).environment = o.environment ∧
    (o.description = none →
      (initOptionsWithDefaults o).description =
        "a generic simulation with nothing special") ∧
    (o.iterations = none → (initOptionsWithDefaults o).iterations = 1000) ∧
    (o.numSentients = none → (initOptionsWithDefaults o).numSentients = 10) ∧
    (o.numNonSentients = none →
      (initOptionsWithDefaults o).numNonSentients = 10) ∧
    (o.maxPopulationSize = none →
      (initOptionsWithDefaults o).maxPopulationSize = 100) ∧
    (o.godEventProbability = none →
      (initOptionsWithDefaults o).godEventProbability = 0.1) ∧
    (o.spawnRate = none → (initOptionsWithDefaults o).spawnRate = 0.1) ∧
    (o.temperature = none → (initOptionsWithDefaults o).temperature = 0.5) ∧
    (o.mode = none → (initOptionsWithDefaults o).mode = "normal") ∧
    (o.verbose = none → (initOptionsWithDefaults o).verbose = false) ∧
    (o.data = none → (initOptionsWithDefaults o).data = []) := by
  refine ⟨rfl, rfl, ?_, ?_, ?_, ?_, ?_, ?_, ?_, ?_, ?_, ?_, ?_⟩ <;>
    intro h <;>
    simp [initOptionsWithDefaults, jsOrString, jsOrNum, jsOrBool, jsOrList, h]

/-- A fully unset options record used to instantiate universally quantified
theorems at a concrete input. -/
def optionsAllUnset : SimulatorOptions :=
  { name := "T1"
    description := none
    iterations := none
    numSentients := none
    numNonSentients := none
    maxPopulationSize := none
    godEventProbability := none
    spawnRate := none
    verbose := none
    temperature := none
    mode := none
    data := none
    environment := "grid" }

/-- Witness for C8 at a concrete fully-unset options record. -/
theorem initOptionsWithDefaults_defaults_witness :
    (initOptionsWithDefaults optionsAllUnset).name = "T1" ∧
    (initOptionsWithDefaults optionsAllUnset).environment = "grid" ∧
    (initOptionsWithDefaults optionsAllUnset).description =
      "a generic simulation with nothing special" ∧
    (initOptionsWithDefaults optionsAllUnset).iterations = 1000 ∧
    (initOptionsWithDefaults optionsAllUnset).temperature = 0.5 := by
  have h := initOptionsWithDefaults_defaults optionsAllUnset
  exact ⟨h.1, h.2.1, h.2.2.1 rfl, h.2.2.2.1 rfl, h.2.2.2.2.2.2.2.2.2.1 rfl⟩

/-- C10: the default merge tests truthiness rather than presence, so an
explicitly supplied falsy value (0, the empty string) is silently replaced by
the field's default, and a resolved configuration never holds
`temperature = 0` or `iterations = 0`. -/
theorem initOptionsWithDefaults_truthiness (o : SimulatorOptions) :
    (initOptionsWithDefaults { o with temperature := some 0 }).temperature
      = 0.5 ∧
    (initOptionsWithDefaults
      { o with godEventProbability := some 0 }).godEventProbability = 0.1 ∧
    (initOptionsWithDefaults { o with spawnRate := some 0 }).spawnRate
      = 0.1 ∧
    (initOptionsWithDefaults { o with iterations := some 0 }).iterations
      = 1000 ∧
    (initOptionsWithDefaults { o with description := some "" }).description
      = "a generic simulation with nothing special" ∧
    (initOptionsWithDefaults { o with mode := some "" }).mode = "normal" ∧
    (initOptionsWithDefaults o).temperature ≠ 0 ∧
    (initOptionsWithDefaults o).iterations ≠ 0 := by
  refine ⟨?_, ?_, ?_, ?_, ?_, ?_, ?_, ?_⟩
  · simp [initOptionsWithDefaults, jsOrNum]
  · simp [initOptionsWithDefaults, jsOrNum]
  · simp [initOptionsWithDefaults, jsOrNum]
  · simp [initOptionsWithDefaults, jsOrNum]
  · simp [initOptionsWithDefaults, jsOrString]
  · simp [initOptionsWithDefaults, jsOrString]
  · simp only [initOptionsWithDefaults]
    cases o.temperature with
    | none => norm_num [jsOrNum]
    | some x =>
      by_cases hx : x = 0
      · subst hx; norm_num [jsOrNum]
      · simp [jsOrNum, hx]
  · simp only [initOptionsWithDefaults]
    cases o.iterations with
    | none => norm_num [jsOrNum]
    | some x =>
      by_cases hx : x = 0
      · subst hx; norm_num [jsOrNum]
      · simp [jsOrNum, hx]

/-- The lifecycle event tags of `SimulatorEvents` used by the controller. -/
inductive SimEvent where
  | SIMULATOR_START
  | SIMULATOR_STOP
  | SIMULATOR_PAUSE
  | SIMULATOR_RESUME
  | SYSTEM_LOG
deriving DecidableEq

/-- The optional structured payload of a log record: `describeEnvironment`
attaches either the environment together with its generated description, or
the caught error. -/
structure LogData where
  environment : Option String := none
  description : Option String := none
  error : Option String := none
deriving DecidableEq

/-- A record handed to `simulatorLogger.log`. -/
structure LogRecord where
  event : SimEvent
  message : String
  data : Option LogData := none
deriving DecidableEq

/-- One observable action of the controller, in program order. -/
inductive Effect where
  | log (r : LogRecord)
  | consoleLog (s : String)
  | consoleError (s : String)
  | prompt (q : String)
  | fetchEnvironmentEvent
  | flushLogWriter
  | processExit (code : Nat)
deriving DecidableEq

/-- The mutable run state owned by the `Simulator` instance. -/
structure SimState where
  isRunning : Bool
  isPaused : Bool
deriving DecidableEq

/-- The record emitted by `start`. -/
def startRecord (opts : ResolvedOptions) : LogRecord :=
  { event := .SIMULATOR_START
    message := "SIMULATION \x27" ++ opts.name ++ "\x27 started." }

/-- The record emitted by `stop`. -/
def stopRecord (opts : ResolvedOptions) : LogRecord :=
  { event := .SIMULATOR_STOP
    message := "SIMULATION \x27" ++ opts.name ++ "\x27 stopped." }

/-- The record emitted by `pause`. -/
def pauseRecord (opts : ResolvedOptions) : LogRecord :=
  { event := .SIMULATOR_PAUSE
    message := "SIMULATION \x27" ++ opts.name ++ "\x27 paused." }

/-- The record emitted by `resume`. -/
def resumeRecord (opts : ResolvedOptions) : LogRecord :=
  { event := .SIMULATOR_RESUME
    message := "SIMULATION \x27" ++ opts.name ++ "\x27 resumed." }

/-- The record emitted at the top of each iteration. -/
def iterationRecord (opts : ResolvedOptions) : LogRecord :=
  { event := .SYSTEM_LOG
    message := "Running iteration for SIMULATION \x27" ++ opts.name ++ "\x27." }

/-- The fixed operator prompt written once per iteration. -/
def promptText : String :=
  "Press \x27x\x27 to continue simulation and \x27q\x27 to exit:"

/-- `Simulator.stop`: clears `isRunning`, logs a SIMULATOR_STOP record, awaits
the logger flush, then exits the process with status 0, in that order. -/
def stop (opts : ResolvedOptions) (s : SimState) : SimState × List Effect :=
  ({ s with isRunning := false },
   [.log (stopRecord opts), .flushLogWriter, .processExit 0])

/-- `Simulator.pause`: sets `isPaused` and logs a SIMULATOR_PAUSE record. -/
def pause (opts : ResolvedOptions) (s : SimState) : SimState × List Effect :=
  ({ s with isPaused := true }, [.log (pauseRecord opts)])

/-- `Simulator.resume`: clears `isPaused` and logs a SIMULATOR_RESUME record;
it performs nothing else (in particular it does not restart the loop). -/
def resume (opts : ResolvedOptions) (s : SimState) : SimState × List Effect :=
  ({ s with isPaused := false }, [.log (resumeRecord opts)])

/-- `Simulator.getRunningState`: `isRunning && !isPaused`. -/
def getRunningState (s : SimState) : Bool :=
  s.isRunning && !s.isPaused

/-- `Simulator.runIteration`, driven by a finite script `answers` of operator
responses and an oracle `events` giving the value resolved by the `k`-th call
to `getNextEnvironmentEvent`.  An exhausted script models a prompt the
operator never answers, so the run suspends there. -/
def runIteration (opts : ResolvedOptions) (events : Nat → String)
    (s : SimState) : Nat → List String → SimState × List Effect
  | _, [] =>
    if s.isPaused then (s, [])
    else (s, [.log (iterationRecord opts), .prompt promptText])
  | k, answer :: rest =>
    if s.isPaused then (s, [])
    else if answer = "q" ∨ answer = "Q" then
      let r := stop opts s
      (r.1, .log (iterationRecord opts) :: .prompt promptText :: r.2)
    else if answer = "x" ∨ answer = "X" then
      let r := runIteration opts events s (k + 1) rest
      (r.1, .log (iterationRecord opts) :: .prompt promptText ::
        .fetchEnvironmentEvent ::
        .consoleLog ("Generated event: " ++ events k) :: r.2)
    else (s, [.log (iterationRecord opts), .prompt promptText])

/-- `Simulator.runSimulation`: enters the iteration loop only when
`getRunningState` holds. -/
def runSimulation (opts : ResolvedOptions) (events : Nat → String)
    (s : SimState) (k : Nat) (answers : List String) :
    SimState × List Effect :=
  if getRunningState s then runIteration opts events s k answers else (s, [])

/-- `Simulator.start`: sets `isRunning`, logs a SIMULATOR_START record, then
invokes `runSimulation` — with no guard against already running. -/
def start (opts : ResolvedOptions) (events : Nat → String)
    (answers : List String) (s : SimState) : SimState × List Effect :=
  let s1 : SimState := { s with isRunning := true }
  let r := runSimulation opts events s1 0 answers
  (r.1, .log (startRecord opts) :: r.2)

/-- `Simulator.describeEnvironment`, with the outcome of the `AI.llm`
text-completion call supplied as an `Except` oracle: on success it returns the
completion unchanged and logs it with the environment; on failure it writes a
console error, logs the error detail, and returns the empty string.  It never
touches the run state. -/
def describeEnvironment (opts : ResolvedOptions)
    (llm : Except String String) (s : SimState) :
    String × SimState × List Effect :=
  match llm with
  | .ok nlDescription =>
    (nlDescription, s,
     [.log { event := .SYSTEM_LOG
             message := "Describing the environment."
             data := some { environment := some opts.environment
                            description := some nlDescription } }])
  | .error e =>
    ("", s,
     [.consoleError ("Error describing the environment: " ++ e),
      .log { event := .SYSTEM_LOG
             message := "Error describing the environment."
             data := some { error := some e } }])

/-- Number of `Logger.log` calls carrying event tag `e` in a trace. -/
def countEvent (e : SimEvent) : List Effect → Nat
  | [] => 0
  | .log r :: rest => (if r.event = e then 1 else 0) + countEvent e rest
  | _ :: rest => countEvent e rest

/-- Number of `Logger.log` calls (of any event tag) in a trace. -/
def countLogs : List Effect → Nat
  | [] => 0
  | .log _ :: rest => 1 + countLogs rest
  | _ :: rest => countLogs rest

/-- Number of `getNextEnvironmentEvent` calls in a trace. -/
def countFetches : List Effect → Nat
  | [] => 0
  | .fetchEnvironmentEvent :: rest => 1 + countFetches rest
  | _ :: rest => countFetches rest

/-- The sequence of logged event tags of a trace, in emission order. -/
def recordEvents : List Effect → List SimEvent
  | [] => []
  | .log r :: rest => r.event :: recordEvents rest
  | _ :: rest => recordEvents rest

/-- Holds when a `processExit` effect, if present, is the final effect of the
trace: nothing is observed after the process terminates. -/
def noEffectAfterExit : List Effect → Bool
  | [] => true
  | .processExit _ :: rest => rest.isEmpty
  | _ :: rest => noEffectAfterExit rest

theorem countEvent_log (e : SimEvent) (r : LogRecord) (t : List Effect) :
    countEvent e (.log r :: t) =
      (if r.event = e then 1 else 0) + countEvent e t := rfl

theorem noEffectAfterExit_log (r : LogRecord) (t : List Effect) :
    noEffectAfterExit (.log r :: t) = noEffectAfterExit t := rfl

theorem noEffectAfterExit_prompt (q : String) (t : List Effect) :
    noEffectAfterExit (.prompt q :: t) = noEffectAfterExit t := rfl

theorem noEffectAfterExit_fetch (t : List Effect) :
    noEffectAfterExit (.fetchEnvironmentEvent :: t) = noEffectAfterExit t :=
  rfl

theorem noEffectAfterExit_consoleLog (m : String) (t : List Effect) :
    noEffectAfterExit (.consoleLog m :: t) = noEffectAfterExit t := rfl

/-- The iteration loop never logs a SIMULATOR_START record. -/
theorem runIteration_no_start (opts : ResolvedOptions) (events : Nat → String)
    (s : SimState) (k : Nat) (answers : List String) :
    countEvent .SIMULATOR_START (runIteration opts events s k answers).2 = 0 := by
  induction answers generalizing k with
  | nil =>
    by_cases hp : s.isPaused <;>
      simp [runIteration, hp, countEvent, iterationRecord]
  | cons a rest ih =>
    by_cases hp : s.isPaused
    · simp [runIteration, hp, countEvent]
    · by_cases hq : a = "q" ∨ a = "Q"
      · simp [runIteration, hp, hq, countEvent, iterationRecord, stop,
          stopRecord]
      · by_cases hx : a = "x" ∨ a = "X"
        · simp only [runIteration, hp, hq, hx, if_false, if_true,
            Bool.false_eq_true, if_neg]
          simp [countEvent, iterationRecord, ih]
        · simp [runIteration, hp, hq, hx, countEvent, iterationRecord]

/-- In every iteration-loop trace a `processExit` effect is final: the loop
schedules nothing after the `stop` that terminates the process. -/
theorem runIteration_exit_last (opts : ResolvedOptions) (events : Nat → String)
    (s : SimState) (k : Nat) (answers : List String) :
    noEffectAfterExit (runIteration opts events s k answers).2 = true := by
  induction answers generalizing k with
  | nil =>
    by_cases hp : s.isPaused <;> simp [runIteration, hp, noEffectAfterExit]
  | cons a rest ih =>
    by_cases hp : s.isPaused
    · simp [runIteration, hp, noEffectAfterExit]
    · by_cases hq : a = "q" ∨ a = "Q"
      · simp [runIteration, hp, hq, stop, noEffectAfterExit]
      · by_cases hx : a = "x" ∨ a = "X"
        · simp only [runIteration, hp, hq, hx, Bool.false_eq_true, if_neg,
            if_false, if_true]
          simp only [noEffectAfterExit_log, noEffectAfterExit_prompt,
            noEffectAfterExit_fetch, noEffectAfterExit_consoleLog]
          exact ih (k + 1)
        · simp [runIteration, hp, hq, hx, noEffectAfterExit]

/-- The iteration loop either leaves `isRunning` untouched, or clears it from
`true` to `false` while logging exactly one SIMULATOR_STOP record (the state
change happens inside the `stop` call). -/
theorem runIteration_isRunning (opts : ResolvedOptions) (events : Nat → String)
    (s : SimState) (k : Nat) (answers : List String) :
    (runIteration opts events s k answers).1 = s ∨
    ((runIteration opts events s k answers).1.isRunning = false ∧
     (runIteration opts events s k answers).1.isPaused = s.isPaused ∧
     countEvent .SIMULATOR_STOP (runIteration opts events s k answers).2 = 1) := by
  induction answers generalizing k with
  | nil =>
    by_cases hp : s.isPaused <;> simp [runIteration, hp]
  | cons a rest ih =>
    by_cases hp : s.isPaused
    · simp [runIteration, hp]
    · by_cases hq : a = "q" ∨ a = "Q"
      · right
        simp [runIteration, hp, hq, stop, countEvent, iterationRecord,
          stopRecord]
      · by_cases hx : a = "x" ∨ a = "X"
        · simp only [runIteration, hp, hq, hx, Bool.false_eq_true, if_neg,
            if_false, if_true]
          rcases ih (k + 1) with h | ⟨h1, h2, h3⟩
          · left; exact h
          · right
            refine ⟨h1, ?_, ?_⟩
            · rw [h2]; simpa using hp
            · simp [countEvent, iterationRecord, h3]
        · simp [runIteration, hp, hq, hx]

/-- The resolved options of the end-to-end scenario configuration. -/
def optsT1 : ResolvedOptions := initOptionsWithDefaults optionsAllUnset

/-- A constant environment-event oracle for concrete instantiations. -/
def constEvents : Nat → String := fun _ => "event"

/-- C3: `stop()` clears `isRunning`, then its effect trace is exactly the
SIMULATOR_STOP record, the logger flush, and the process exit with status 0,
in that order — so the flush completes before termination and the exit status
is always 0. -/
theorem stop_spec (opts : ResolvedOptions) (s : SimState) :
    (stop opts s).1.isRunning = false ∧
    (stop opts s).1.isPaused = s.isPaused ∧
    (stop opts s).2 =
      [.log (stopRecord opts), .flushLogWriter, .processExit 0] ∧
    (stopRecord opts).event = .SIMULATOR_STOP ∧
    countEvent .SIMULATOR_STOP (stop opts s).2 = 1 ∧
    noEffectAfterExit (stop opts s).2 = true := by
  simp [stop, stopRecord, countEvent, noEffectAfterExit]

/-- C4: `describeEnvironment()` never throws: on success it returns the
collaborator's output unchanged and logs exactly one SYSTEM_LOG record
carrying both the environment and the description; on failure it returns the
empty string and logs exactly one SYSTEM_LOG record carrying the error
detail; in both cases the run state is untouched. -/
theorem describeEnvironment_spec (opts : ResolvedOptions) (s : SimState)
    (d e : String) :
    (describeEnvironment opts (.ok d) s).1 = d ∧
    (describeEnvironment opts (.ok d) s).2.1 = s ∧
    countLogs (describeEnvironment opts (.ok d) s).2.2 = 1 ∧
    (describeEnvironment opts (.ok d) s).2.2 =
      [.log { event := .SYSTEM_LOG
              message := "Describing the environment."
              data := some { environment := some opts.environment
                             description := some d } }] ∧
    (describeEnvironment opts (.error e) s).1 = "" ∧
    (describeEnvironment opts (.error e) s).2.1 = s ∧
    countLogs (describeEnvironment opts (.error e) s).2.2 = 1 ∧
    (describeEnvironment opts (.error e) s).2.2 =
      [.consoleError ("Error describing the environment: " ++ e),
       .log { event := .SYSTEM_LOG
              message := "Error describing the environment."
              data := some { error := some e } }] := by
  simp [describeEnvironment, countLogs]

/-- C6: an iteration invoked while `isPaused` holds is a complete no-op: no
records, no prompt, no environment fetch, no state change, and no further
iteration is scheduled. -/
theorem runIteration_paused_noop (opts : ResolvedOptions)
    (events : Nat → String) (s : SimState) (k : Nat) (answers : List String)
    (h : s.isPaused = true) :
    runIteration opts events s k answers = (s, []) := by
  cases answers <;> simp [runIteration, h]

/-- Witness for C6 at a concrete paused state and non-empty script. -/
theorem runIteration_paused_noop_witness :
    SimState.isPaused { isRunning := true, isPaused := true } = true ∧
    runIteration optsT1 constEvents { isRunning := true, isPaused := true }
      0 ["x", "q"] =
      ({ isRunning := true, isPaused := true }, []) :=
  ⟨rfl, runIteration_paused_noop optsT1 constEvents
    { isRunning := true, isPaused := true } 0 ["x", "q"] rfl⟩

/-- Counterexample to C1: with the state already running, `start()` still
emits a SIMULATOR_START record (one per call), so a second call is not a
silent no-op. -/
theorem start_not_idempotent_cex :
    SimState.isRunning { isRunning := true, isPaused := false } = true ∧
    ¬ (countEvent .SIMULATOR_START
        (start optsT1 constEvents []
          { isRunning := true, isPaused := false }).2 = 0) := by
  refine ⟨rfl, ?_⟩
  simp [start, runSimulation, getRunningState, runIteration, countEvent,
    startRecord, iterationRecord]

/-- Amended C1: `start()` is not guarded: every call, including one made
while `isRunning` is already true, logs exactly one additional
SIMULATOR_START record first and then re-enters `runSimulation`. -/
theorem start_always_emits_start (opts : ResolvedOptions)
    (events : Nat → String) (answers : List String) (s : SimState) :
    countEvent .SIMULATOR_START (start opts events answers s).2 = 1 ∧
    (start opts events answers s).2 =
      .log (startRecord opts) ::
        (runSimulation opts events { s with isRunning := true } 0 answers).2 ∧
    (start opts events answers s).1 =
      (runSimulation opts events { s with isRunning := true } 0 answers).1 := by
  refine ⟨?_, rfl, rfl⟩
  by_cases hg : getRunningState { s with isRunning := true } = true
  · simp [start, runSimulation, hg, countEvent, startRecord,
      runIteration_no_start]
  · simp [start, runSimulation, hg, countEvent, startRecord]

/-- Counterexample to C2: at a paused state with `isRunning = true`,
`resume()` emits no iteration SYSTEM_LOG record and fetches nothing — the
iteration sequence is not re-entered, so a paused run stays stalled. -/
theorem resume_no_reentry_cex :
    SimState.isRunning { isRunning := true, isPaused := true } = true ∧
    (resume optsT1 { isRunning := true, isPaused := true }).1.isPaused
      = false ∧
    countEvent .SYSTEM_LOG
      (resume optsT1 { isRunning := true, isPaused := true }).2 = 0 ∧
    countFetches
      (resume optsT1 { isRunning := true, isPaused := true }).2 = 0 := by
  refine ⟨rfl, rfl, ?_, rfl⟩
  simp [resume, resumeRecord, countEvent]

/-- Amended C2: `resume()` sets `isPaused` to false and emits exactly one
SIMULATOR_RESUME record, and nothing else: it does not re-enter the
iteration sequence even when `isRunning` is still true. -/
theorem resume_spec (opts : ResolvedOptions) (s : SimState) :
    (resume opts s).1.isPaused = false ∧
    (resume opts s).1.isRunning = s.isRunning ∧
    (resume opts s).2 = [.log (resumeRecord opts)] ∧
    (resumeRecord opts).event = .SIMULATOR_RESUME ∧
    countEvent .SYSTEM_LOG (resume opts s).2 = 0 ∧
    countFetches (resume opts s).2 = 0 := by
  refine ⟨rfl, rfl, rfl, rfl, ?_, rfl⟩
  simp [resume, resumeRecord, countEvent]

/-- C5: `isRunning` rises only inside `start` and falls only inside `stop`:
`pause`, `resume` and `describeEnvironment` never touch it, `runSimulation`
refuses to iterate once `isRunning` is false, the iteration loop can only
clear the flag together with logging the SIMULATOR_STOP record of the `stop`
call it makes, and no effect follows the process exit that `stop` performs,
so no iteration begins once `isRunning` is false. -/
theorem isRunning_transitions (opts : ResolvedOptions)
    (events : Nat → String) (llm : Except String String) (s : SimState)
    (k : Nat) (answers : List String) :
    (pause opts s).1.isRunning = s.isRunning ∧
    (resume opts s).1.isRunning = s.isRunning ∧
    (describeEnvironment opts llm s).2.1 = s ∧
    (stop opts s).1.isRunning = false ∧
    (s.isRunning = false →
      runSimulation opts events s k answers = (s, [])) ∧
    (s.isRunning = false →
      (runIteration opts events s k answers).1.isRunning = false) ∧
    ((runIteration opts events s k answers).1.isRunning ≠ s.isRunning →
      s.isRunning = true ∧
      (runIteration opts events s k answers).1.isRunning = false ∧
      countEvent .SIMULATOR_STOP
        (runIteration opts events s k answers).2 = 1) ∧
    noEffectAfterExit (runIteration opts events s k answers).2 = true := by
  refine ⟨rfl, rfl, ?_, rfl, ?_, ?_, ?_,
    runIteration_exit_last opts events s k answers⟩
  · cases llm <;> rfl
  · intro h
    simp [runSimulation, getRunningState, h]
  · intro h
    rcases runIteration_isRunning opts events s k answers with h1 | ⟨h1, _, _⟩
    · rw [h1, h]
    · exact h1
  · intro hne
    rcases runIteration_isRunning opts events s k answers with h1 | ⟨h1, _, h3⟩
    · exact absurd (by rw [h1]) hne
    · refine ⟨?_, h1, h3⟩
      by_contra hr
      have hr' : s.isRunning = false := by
        cases hsr : s.isRunning
        · rfl
        · exact absurd hsr hr
      exact hne (by rw [h1, hr'])

/-- Witness for C5: the guard of `runSimulation` at a concrete non-running
state with a non-empty operator script. -/
theorem isRunning_transitions_witness :
    runSimulation optsT1 constEvents { isRunning := false, isPaused := false }
      0 ["x"] = ({ isRunning := false, isPaused := false }, []) :=
  (isRunning_transitions optsT1 constEvents (.ok "d")
    { isRunning := false, isPaused := false } 0 ["x"]).2.2.2.2.1 rfl

/-- C7: with the run active, exactly the operator responses "q"/"Q" make the
iteration invoke `stop` (no fetch, records SYSTEM_LOG then SIMULATOR_STOP),
exactly "x"/"X" make it fetch one environment event and then schedule the
next iteration, and any other response neither fetches nor stops nor
continues; and the run whose first response is "q" emits exactly the record
sequence START, SYSTEM_LOG, STOP with zero environment fetches. -/
theorem operator_input_interpretation (opts : ResolvedOptions)
    (events : Nat → String) (s : SimState) (k : Nat) (a : String)
    (rest : List String) (_hr : s.isRunning = true)
    (hp : s.isPaused = false) :
    ((a = "q" ∨ a = "Q") →
      (runIteration opts events s k (a :: rest)).1.isRunning = false ∧
      countFetches (runIteration opts events s k (a :: rest)).2 = 0 ∧
      recordEvents (runIteration opts events s k (a :: rest)).2 =
        [.SYSTEM_LOG, .SIMULATOR_STOP]) ∧
    ((a = "x" ∨ a = "X") →
      (runIteration opts events s k (a :: rest)).2 =
        .log (iterationRecord opts) :: .prompt promptText ::
          .fetchEnvironmentEvent ::
          .consoleLog ("Generated event: " ++ events k) ::
          (runIteration opts events s (k + 1) rest).2 ∧
      (runIteration opts events s k (a :: rest)).1 =
        (runIteration opts events s (k + 1) rest).1 ∧
      countFetches (runIteration opts events s k (a :: rest)).2 =
        1 + countFetches (runIteration opts events s (k + 1) rest).2) ∧
    (¬(a = "q" ∨ a = "Q") → ¬(a = "x" ∨ a = "X") →
      (runIteration opts events s k (a :: rest)).1 = s ∧
      countFetches (runIteration opts events s k (a :: rest)).2 = 0 ∧
      countEvent .SIMULATOR_STOP
        (runIteration opts events s k (a :: rest)).2 = 0 ∧
      recordEvents (runIteration opts events s k (a :: rest)).2 =
        [.SYSTEM_LOG]) ∧
    (recordEvents
        (start optsT1 events ["q"] { isRunning := false, isPaused := false }).2
        = [.SIMULATOR_START, .SYSTEM_LOG, .SIMULATOR_STOP] ∧
      countFetches
        (start optsT1 events ["q"]
          { isRunning := false, isPaused := false }).2 = 0) := by
  refine ⟨?_, ?_, ?_, ?_, ?_⟩
  · intro hq
    simp [runIteration, hp, hq, stop, countFetches, recordEvents,
      iterationRecord, stopRecord]
  · intro hx
    have hq : ¬(a = "q" ∨ a = "Q") := by
      rcases hx with h | h <;> subst h <;> simp
    have hrun : runIteration opts events s k (a :: rest) =
        ((runIteration opts events s (k + 1) rest).1,
         .log (iterationRecord opts) :: .prompt promptText ::
           .fetchEnvironmentEvent ::
           .consoleLog ("Generated event: " ++ events k) ::
           (runIteration opts events s (k + 1) rest).2) := by
      simp [runIteration, hp, hq, hx]
    rw [hrun]
    simp [countFetches]
  · intro hq hx
    simp [runIteration, hp, hq, hx, countFetches, countEvent, recordEvents,
      iterationRecord]
  · simp [start, runSimulation, getRunningState, runIteration, stop,
      recordEvents, startRecord, iterationRecord, stopRecord]
  · simp [start, runSimulation, getRunningState, runIteration, stop,
      countFetches]

/-- Witness for C7 at a concrete active state and the response "q". -/
theorem operator_input_interpretation_witness :
    (runIteration optsT1 constEvents { isRunning := true, isPaused := false }
      0 ["q"]).1.isRunning = false ∧
    countFetches (runIteration optsT1 constEvents
      { isRunning := true, isPaused := false } 0 ["q"]).2 = 0 := by
  have h := operator_input_interpretation optsT1 constEvents
    { isRunning := true, isPaused := false } 0 "q" [] rfl rfl
  exact ⟨(h.1 (Or.inl rfl)).1, (h.1 (Or.inl rfl)).2.1⟩

/-- The iteration loop reads nothing from the resolved options but `name`:
two options records with equal names drive identical loops. -/
theorem runIteration_congr_name (o o' : ResolvedOptions)
    (h : o.name = o'.name) (events : Nat → String) (s : SimState) :
    ∀ (k : Nat) (answers : List String),
      runIteration o events s k answers =
        runIteration o' events s k answers := by
  have hir : iterationRecord o = iterationRecord o' := by
    simp [iterationRecord, h]
  have hsr : stopRecord o = stopRecord o' := by
    simp [stopRecord, h]
  intro k answers
  induction answers generalizing k with
  | nil => by_cases hp : s.isPaused <;> simp [runIteration, hp, hir]
  | cons a rest ih =>
    by_cases hp : s.isPaused
    · simp [runIteration, hp]
    · by_cases hq : a = "q" ∨ a = "Q"
      · simp [runIteration, hp, hq, stop, hsr, hir]
      · by_cases hx : a = "x" ∨ a = "X"
        · simp [runIteration, hp, hq, hx, hir, ih (k + 1)]
        · simp [runIteration, hp, hq, hx, hir]

/-- A whole run from `start` likewise depends only on the options' `name`. -/
theorem start_congr_name (o o' : ResolvedOptions) (h : o.name = o'.name)
    (events : Nat → String) (answers : List String) (s : SimState) :
    start o events answers s = start o' events answers s := by
  have hr := runIteration_congr_name o o' h events
    { s with isRunning := true }
  have hst : startRecord o = startRecord o' := by
    simp [startRecord, h]
  simp [start, runSimulation, hst, hr 0 answers]

/-- C9: the control loop never consults the resolved `iterations` field: two
runs whose configurations differ only in `iterations` (whether at the
resolved level or in the constructor input), given the same operator
responses and environment events, are identical in state transitions, effect
traces (hence record sequences), and environment-fetch counts. -/
theorem iterations_never_consulted (o : ResolvedOptions) (n n' : JsNum)
    (oin : SimulatorOptions) (v v' : Option JsNum) (events : Nat → String)
    (answers : List String) (s : SimState) (k : Nat) :
    runIteration { o with iterations := n } events s k answers =
      runIteration { o with iterations := n' } events s k answers ∧
    start { o with iterations := n } events answers s =
      start { o with iterations := n' } events answers s ∧
    stop { o with iterations := n } s =
      stop { o with iterations := n' } s ∧
    start (initOptionsWithDefaults { oin with iterations := v })
        events answers s =
      start (initOptionsWithDefaults { oin with iterations := v' })
        events answers s := by
  refine ⟨?_, ?_, rfl, ?_⟩
  · exact runIteration_congr_name { o with iterations := n }
      { o with iterations := n' } rfl events s k answers
  · exact start_congr_name { o with iterations := n }
      { o with iterations := n' } rfl events answers s
  · exact start_congr_name
      (initOptionsWithDefaults { oin with iterations := v })
      (initOptionsWithDefaults { oin with iterations := v' })
      rfl events answers s
